import Mathlib

/-!
Shallow embedding of the asyncpraw submission model:
`Submission.id_from_url`, `Submission._chunk`, `Submission.__init__`,
`Submission.__setattr__`, `Submission._fetch` (from
src/asyncpraw/models/reddit/submission.py), and
`SubmissionModeration.sticky` plus `ThingModerationMixin.send_removal_message`
(from src/asyncpraw/models/reddit/mixins/init).

An entity instance is modelled by its attribute dictionary. Attribute
assignment goes through the embedded assignment hook, mirroring python
semantics where every attribute store on a Submission runs `__setattr__`.
-/

/-- Raw attribute values as delivered by the wire format: strings, numbers and
booleans (a nested record fragment is carried abstractly by one of these). -/
inductive RawVal where
  | s : String → RawVal
  | n : Nat → RawVal
  | b : Bool → RawVal
deriving DecidableEq, Repr

/-- Values stored in an entity attribute dictionary after the assignment hook
ran. Modelled from the spec: the Entity Reference Factory results
(`Redditor.from_data`, `Subreddit`, `PollData`), which are not under src/, are
typed wrappers around the raw value they were built from. `comMap` models the
empty comments-by-id mapping and `forest` a `CommentForest` holding its
children. -/
inductive StoredVal where
  | raw : RawVal → StoredVal
  | redditorRef : RawVal → StoredVal
  | subredditRef : RawVal → StoredVal
  | pollData : RawVal → StoredVal
  | comMap : StoredVal
  | forest : List RawVal → StoredVal
deriving DecidableEq, Repr

/-- An entity attribute dictionary (the instance dict), keyed by attribute
name. Lookup finds the first binding; insertion removes older bindings, so the
list models a python dict up to ordering. -/
abbrev Dict := List (String × StoredVal)

/-- First binding of a key. -/
def dlookup {β : Type} (k : String) : List (String × β) → Option β
  | [] => none
  | (k0, v0) :: t => if k0 = k then some v0 else dlookup k t

/-- Last binding of a key (a python dict built by iterating such a list keeps
the last value bound to a repeated key). -/
def dlookupLast {β : Type} (k : String) : List (String × β) → Option β
  | [] => none
  | (k0, v0) :: t =>
    match dlookupLast k t with
    | some v => some v
    | none => if k0 = k then some v0 else none

/-- Left-biased choice on options. -/
def oor {α : Type} (a b : Option α) : Option α :=
  match a with
  | some v => some v
  | none => b

/-- Dictionary key removal, modelling python delattr. -/
def derase (k : String) : Dict → Dict
  | [] => []
  | (k0, v0) :: t => if k0 = k then derase k t else (k0, v0) :: derase k t

/-- Dictionary insertion: a python attribute store replaces any previous
binding of the same name. -/
def dinsert (k : String) (v : StoredVal) (d : Dict) : Dict :=
  (k, v) :: derase k d

/-- The value actually stored by `Submission.__setattr__` for a given
attribute name (submission.py lines 612-631): author, subreddit and poll_data
values are wrapped into typed objects; every other attribute stores the
assigned value verbatim. -/
def normalizeAttr (k : String) (v : RawVal) : StoredVal :=
  if k = "author" then .redditorRef v
  else if k = "subreddit" then .subredditRef v
  else if k = "poll_data" then .pollData v
  else .raw v

/-- Python truthiness of a stored value (only raw booleans occur at the
`_fetched` key in practice). -/
def isTruthy : StoredVal → Bool
  | .raw (.b x) => x
  | .raw (.n k) => k ≠ 0
  | .raw (.s str) => !str.isEmpty
  | .forest cs => !cs.isEmpty
  | _ => true

/-- `hasattr(self, "_fetched") and self._fetched`. -/
def fetchedTrue (d : Dict) : Bool :=
  match dlookup "_fetched" d with
  | some v => isTruthy v
  | none => false

/-- `hasattr(self, "_reddit")`. -/
def hasReddit (d : Dict) : Bool :=
  (dlookup "_reddit" d).isSome

/-- `Submission.__setattr__` (submission.py lines 612-631): returns the
updated dictionary and whether the post-fetch comment_sort warning fired.
`warnCfg` models `self._reddit.config.warn_comment_sort`, a configuration flag
external to src/. The assignment itself never raises and always stores. -/
def setattrS (warnCfg : Bool) (d : Dict) (k : String) (v : RawVal) : Dict × Bool :=
  (dinsert k (normalizeAttr k v) d,
   k == "comment_sort" && fetchedTrue d && hasReddit d && warnCfg)

/-- Assign every record item in order through the assignment hook. -/
def foldSetattr (warnCfg : Bool) (d : Dict) (items : List (String × RawVal)) : Dict :=
  items.foldl (fun acc kv => (setattrS warnCfg acc kv.1 kv.2).1) d

/-- Modelled from the spec: `RedditBase.__init__` is not under src/. Per the
spec, a Lazy Entity stores the client, tracks fetch state starting unfetched,
and populates constructor-supplied record fields through the same assignment
path as every other store. The client object is abstract and modelled as a raw
boolean under the `_reddit` key. -/
def baseInit (warnCfg : Bool) (d : Dict) (data? : Option (List (String × RawVal))) : Dict :=
  let d1 := (setattrS warnCfg d "_reddit" (.b true)).1
  let d2 := (setattrS warnCfg d1 "_fetched" (.b false)).1
  match data? with
  | none => d2
  | some items => foldSetattr warnCfg d2 items

/-- Failure modes of `Submission.id_from_url`: `invalidURL` models the raised
`InvalidURL` (carrying its message) and `indexError` an out-of-range segment
index, which python would raise as IndexError, not InvalidURL. -/
inductive UrlErr where
  | invalidURL : String → UrlErr
  | indexError : UrlErr
deriving DecidableEq, Repr

/-- Python str.isalnum (ASCII range): true on nonempty strings all of whose
characters are alphanumeric. -/
def pyIsAlnum (s : String) : Bool :=
  !s.isEmpty && s.toList.all (fun c => c.isAlphanum)

/-- `Submission.id_from_url` (submission.py lines 462-496), acting on the URL
path segment list. `RedditBase._url_parts` is not under src/; modelled from
the spec it tokenizes the URL path into segments, so a URL is represented here
directly by its segment list. The branch structure follows the source: the
no-marker branch takes the last segment and rejects subreddit paths, the
gallery branch takes the segment after the first "gallery", a path ending at
"comments" is rejected, otherwise the segment after the first "comments" is
taken; the extracted identifier must be alphanumeric. -/
def id_from_url (parts : List String) : Except UrlErr String :=
  let sidE : Except UrlErr String :=
    if !(parts.contains "comments") && !(parts.contains "gallery") then
      match parts.getLast? with
      | none => .error .indexError
      | some sid =>
        if parts.contains "r" then
          .error (.invalidURL "Invalid URL (subreddit, not submission)")
        else .ok sid
    else if parts.contains "gallery" then
      match parts[parts.indexOf "gallery" + 1]? with
      | none => .error .indexError
      | some sid => .ok sid
    else if parts.getLast? = some "comments" then
      .error (.invalidURL "Invalid URL (submission ID not present)")
    else
      match parts[parts.indexOf "comments" + 1]? with
      | none => .error .indexError
      | some sid => .ok sid
  match sidE with
  | .error e => .error e
  | .ok sid => if pyIsAlnum sid then .ok sid else .error (.invalidURL "Invalid URL")

/-- Python range with start 0 and a positive step. -/
def pyRange (stop step : Nat) : List Nat :=
  (List.range ((stop + step - 1) / step)).map (fun i => i * step)

/-- `Submission._chunk` (submission.py lines 633-639) as the list of
identifier groups before the comma join: the fullname of the submission
itself followed by the other fullnames, grouped. The source steps positions by
`chunk_size` but slices with the literal 50. -/
def chunkGroups (fullname : String) (other_submissions : List String) (chunk_size : Nat) : List (List String) :=
  let all_submissions := fullname :: other_submissions
  (pyRange all_submissions.length chunk_size).map
    (fun position => (all_submissions.drop position).take 50)

/-- `Submission._chunk`: each yielded value is the comma join of a group. -/
def chunkJoined (fullname : String) (other_submissions : List String) (chunk_size : Nat) : List String :=
  (chunkGroups fullname other_submissions chunk_size).map (String.intercalate ",")

/-- Failure modes of `Submission.__init__`: `identityError` models the arity
guard raise (the spec names it IdentityError), `urlError` a failure of
`id_from_url` on the supplied url. -/
inductive InitErr where
  | identityError : InitErr
  | urlError : UrlErr → InitErr
deriving DecidableEq, Repr

/-- `(id, url, _data).count(None)`. -/
def countNone (id? : Option String) (url? : Option (List String))
    (data? : Option (List (String × RawVal))) : Nat :=
  (if id?.isNone then 1 else 0) + (if url?.isNone then 1 else 0) +
    (if data?.isNone then 1 else 0)

/-- How many of the three identity arguments were supplied. -/
def suppliedCount (id? : Option String) (url? : Option (List String))
    (data? : Option (List (String × RawVal))) : Nat :=
  (if id?.isSome then 1 else 0) + (if url?.isSome then 1 else 0) +
    (if data?.isSome then 1 else 0)

/-- Attribute dictionary after the first two assignments of
`Submission.__init__`: comment_limit := 2048, comment_sort := "confidence". -/
def defaultsDict (warnCfg : Bool) : Dict :=
  (setattrS warnCfg ((setattrS warnCfg [] "comment_limit" (.n 2048)).1)
    "comment_sort" (.s "confidence")).1

/-- Tail of `Submission.__init__` after the identity is resolved: the base
initialization, then the comments-by-id map and an empty comment forest. The
last two stores put non-record objects through the default branch of the
assignment hook and are modelled as direct insertions. -/
def finishInit (warnCfg : Bool) (d : Dict) (data? : Option (List (String × RawVal))) : Dict :=
  dinsert "comments" (.forest []) (dinsert "_comments_by_id" .comMap (baseInit warnCfg d data?))

/-- Construction from a pre-fetched record only: the path `_fetch` uses for
its transient submission. -/
def initFromData (warnCfg : Bool) (data : List (String × RawVal)) : Dict :=
  finishInit warnCfg (defaultsDict warnCfg) (some data)

/-- `Submission.__init__` (submission.py lines 546-610). URLs are represented
by their path segment lists; a supplied url is treated as truthy, while a
supplied empty-string id is falsy as in python. The arity guard raises before
anything else; the embedding is a pure function, so no construction path
performs network access. -/
def submissionInit (warnCfg : Bool) (id? : Option String) (url? : Option (List String))
    (data? : Option (List (String × RawVal))) : Except InitErr Dict :=
  if countNone id? url? data? ≠ 2 then .error .identityError
  else
    match id?, url? with
    | some i, _ =>
      if i = "" then .ok (finishInit warnCfg (defaultsDict warnCfg) data?)
      else .ok (finishInit warnCfg ((setattrS warnCfg (defaultsDict warnCfg) "id" (.s i)).1) data?)
    | none, some segs =>
      match id_from_url segs with
      | .error e => .error (.urlError e)
      | .ok i => .ok (finishInit warnCfg ((setattrS warnCfg (defaultsDict warnCfg) "id" (.s i)).1) data?)
    | none, none => .ok (finishInit warnCfg (defaultsDict warnCfg) data?)

/-- python dict.update: entries of the second dictionary override entries of
the first, iterated in order. -/
def updateDict (s t : Dict) : Dict :=
  t.foldl (fun acc kv => dinsert kv.1 kv.2 acc) s

/-- The transient dictionary `_fetch` merges into self (submission.py lines
641-654): a submission built from the fetched record, with its comment_limit
and comment_sort attributes deleted and a fresh empty comment forest. -/
def mergeSrc (warnCfg : Bool) (data : List (String × RawVal)) : Dict :=
  dinsert "comments" (.forest [])
    (derase "comment_sort" (derase "comment_limit" (initFromData warnCfg data)))

/-- `Submission._fetch` after the transport returned: `data` is the fetched
submission record and `children` the children of the comment listing. The transient
dictionary is merged into self, `_fetched` is set, and the comment forest is
updated with the fetched children. -/
def fetchMerge (warnCfg : Bool) (s : Dict) (data : List (String × RawVal))
    (children : List RawVal) : Dict :=
  dinsert "comments" (.forest children)
    (dinsert "_fetched" (.raw (.b true)) (updateDict s (mergeSrc warnCfg data)))

/-- Transport failures: `conflict` models the asyncprawcore Conflict raised on
an HTTP 409, `httpError` any other transport error. -/
inductive TransportErr where
  | conflict : TransportErr
  | httpError : Nat → TransportErr
deriving DecidableEq, Repr

/-- The request `SubmissionModeration.sticky` posts. -/
structure StickyRequest where
  path : String
  thing : String
  state : Bool
  num : Option Nat
deriving DecidableEq, Repr

/-- Request construction in `SubmissionModeration.sticky` (submission.py lines
270-304): data carries the fullname and state, plus num = 1 when not bottom. -/
def stickyRequest (fullname : String) (bottom state : Bool) : StickyRequest :=
  ⟨"sticky_submission", fullname, state, if bottom then none else some 1⟩

/-- `SubmissionModeration.sticky`: posts the sticky request through the
transport; a Conflict is caught and suppressed (the python except branch
falls through, so the call returns None, modelled as `.ok none`); every other
transport error propagates unchanged. -/
def sticky (fullname : String) (bottom state : Bool)
    (transport : StickyRequest → Except TransportErr RawVal) :
    Except TransportErr (Option RawVal) :=
  match transport (stickyRequest fullname bottom state) with
  | .ok v => .ok (some v)
  | .error .conflict => .ok none
  | .error e => .error e

/-- Failure mode of `send_removal_message`: python raises NotImplementedError
when no endpoint is configured; the spec names this UnsupportedOperationError. -/
inductive ModErr where
  | unsupportedOperation : ModErr
deriving DecidableEq, Repr

/-- The removal-message request `send_removal_message` issues. -/
structure RemovalRequest where
  url : String
  item_id : List String
  message : String
  title : String
  rtype : String
deriving DecidableEq, Repr

/-- `ThingModerationMixin.REMOVAL_MESSAGE_API` (mixins/init line 25). -/
def ThingModerationMixin_REMOVAL_MESSAGE_API : Option String := none

/-- `SubmissionModeration.REMOVAL_MESSAGE_API` (submission.py line 97). -/
def SubmissionModeration_REMOVAL_MESSAGE_API : Option String :=
  some "removal_link_message"

/-- `ThingModerationMixin.send_removal_message` (mixins/init lines 197-241):
with no removal-message endpoint configured for the kind it fails before any
request is built; otherwise it returns the removal-message request it issues.
`api_path` models the external endpoint-path configuration table. -/
def send_removal_message (removal_message_api : Option String)
    (api_path : String → String) (fullname message title rtype : String) :
    Except ModErr RemovalRequest :=
  match removal_message_api with
  | none => .error .unsupportedOperation
  | some api => .ok ⟨api_path api, [fullname], message, title, rtype⟩


/-! ## Dictionary lemmas -/

theorem dlookup_derase_ne (k k' : String) (d : Dict) (h : k' ≠ k) :
    dlookup k' (derase k d) = dlookup k' d := by
  induction d with
  | nil => rfl
  | cons hd tl ih =>
    obtain ⟨k0, v0⟩ := hd
    by_cases hk : k0 = k
    · simp [derase, dlookup, hk, Ne.symm h, ih]
    · simp [derase, dlookup, hk, ih]

theorem dlookup_derase_self (k : String) (d : Dict) :
    dlookup k (derase k d) = none := by
  induction d with
  | nil => rfl
  | cons hd tl ih =>
    obtain ⟨k0, v0⟩ := hd
    by_cases hk : k0 = k
    · simp [derase, hk, ih]
    · simp [derase, dlookup, hk, ih]

theorem dlookup_dinsert (k k' : String) (v : StoredVal) (d : Dict) :
    dlookup k' (dinsert k v d) = if k = k' then some v else dlookup k' d := by
  by_cases h : k = k'
  · subst h
    simp [dinsert, dlookup]
  · simp [dinsert, dlookup, h, dlookup_derase_ne k k' d (fun e => h e.symm)]

theorem dlookup_derase (k k' : String) (d : Dict) :
    dlookup k' (derase k d) = if k = k' then none else dlookup k' d := by
  by_cases h : k = k'
  · subst h
    simp [dlookup_derase_self]
  · simp [h, dlookup_derase_ne k k' d (fun e => h e.symm)]

theorem dlookupLast_derase_ne (k k' : String) (d : Dict) (h : k' ≠ k) :
    dlookupLast k' (derase k d) = dlookupLast k' d := by
  induction d with
  | nil => rfl
  | cons hd tl ih =>
    obtain ⟨k0, v0⟩ := hd
    by_cases hk : k0 = k
    · simp [derase, dlookupLast, hk, Ne.symm h, ih]
      cases dlookupLast k' tl <;> simp
    · simp [derase, dlookupLast, hk, ih]

theorem dlookupLast_derase_self (k : String) (d : Dict) :
    dlookupLast k (derase k d) = none := by
  induction d with
  | nil => rfl
  | cons hd tl ih =>
    obtain ⟨k0, v0⟩ := hd
    by_cases hk : k0 = k
    · simp [derase, hk, ih]
    · simp [derase, dlookupLast, hk, ih]

theorem dlookupLast_dinsert (k k' : String) (v : StoredVal) (d : Dict) :
    dlookupLast k' (dinsert k v d) = if k = k' then some v else dlookupLast k' d := by
  by_cases h : k = k'
  · subst h
    simp [dinsert, dlookupLast, dlookupLast_derase_self]
  · simp [dinsert, dlookupLast, h, dlookupLast_derase_ne k k' d (fun e => h e.symm)]
    cases dlookupLast k' d <;> simp [h]

theorem oor_idem {α : Type} (a b : Option α) : oor a (oor a b) = oor a b := by
  cases a <;> simp [oor]

theorem dlookup_updateDict (s t : Dict) (k : String) :
    dlookup k (updateDict s t) = oor (dlookupLast k t) (dlookup k s) := by
  induction t generalizing s with
  | nil => simp [updateDict, dlookupLast, oor]
  | cons hd tl ih =>
    obtain ⟨k0, v0⟩ := hd
    have step : updateDict s ((k0, v0) :: tl) = updateDict (dinsert k0 v0 s) tl := rfl
    rw [step, ih, dlookup_dinsert]
    by_cases hk : k0 = k
    · cases hll : dlookupLast k tl <;> simp [dlookupLast, hll, hk, oor]
    · cases hll : dlookupLast k tl <;> simp [dlookupLast, hll, hk, oor]

theorem setattrS_fst (w : Bool) (d : Dict) (k : String) (v : RawVal) :
    (setattrS w d k v).1 = dinsert k (normalizeAttr k v) d := rfl

theorem dlookup_foldSetattr (w : Bool) (d : Dict) (items : List (String × RawVal)) (k : String) :
    dlookup k (foldSetattr w d items) =
      oor ((dlookupLast k items).map (normalizeAttr k)) (dlookup k d) := by
  induction items generalizing d with
  | nil => simp [foldSetattr, dlookupLast, oor]
  | cons hd tl ih =>
    obtain ⟨k0, v0⟩ := hd
    have step : foldSetattr w d ((k0, v0) :: tl) =
        foldSetattr w (dinsert k0 (normalizeAttr k0 v0) d) tl := rfl
    rw [step, ih, dlookup_dinsert]
    by_cases hk : k0 = k
    · cases hll : dlookupLast k tl <;> simp [dlookupLast, hll, hk, oor]
    · cases hll : dlookupLast k tl <;> simp [dlookupLast, hll, hk, oor]

theorem dlookupLast_foldSetattr (w : Bool) (d : Dict) (items : List (String × RawVal)) (k : String) :
    dlookupLast k (foldSetattr w d items) =
      oor ((dlookupLast k items).map (normalizeAttr k)) (dlookupLast k d) := by
  induction items generalizing d with
  | nil => simp [foldSetattr, dlookupLast, oor]
  | cons hd tl ih =>
    obtain ⟨k0, v0⟩ := hd
    have step : foldSetattr w d ((k0, v0) :: tl) =
        foldSetattr w (dinsert k0 (normalizeAttr k0 v0) d) tl := rfl
    rw [step, ih, dlookupLast_dinsert]
    by_cases hk : k0 = k
    · cases hll : dlookupLast k tl <;> simp [dlookupLast, hll, hk, oor]
    · cases hll : dlookupLast k tl <;> simp [dlookupLast, hll, hk, oor]

theorem dlookup_fetchMerge (w : Bool) (s : Dict) (data : List (String × RawVal))
    (children : List RawVal) (k : String) :
    dlookup k (fetchMerge w s data children) =
      if "comments" = k then some (.forest children)
      else if "_fetched" = k then some (.raw (.b true))
      else oor (dlookupLast k (mergeSrc w data)) (dlookup k s) := by
  unfold fetchMerge
  rw [dlookup_dinsert, dlookup_dinsert, dlookup_updateDict]

theorem dlookupLast_mergeSrc_limit (w : Bool) (data : List (String × RawVal)) :
    dlookupLast "comment_limit" (mergeSrc w data) = none := by
  unfold mergeSrc
  rw [dlookupLast_dinsert, if_neg (by decide),
      dlookupLast_derase_ne _ _ _ (by decide), dlookupLast_derase_self]

theorem dlookupLast_mergeSrc_sort (w : Bool) (data : List (String × RawVal)) :
    dlookupLast "comment_sort" (mergeSrc w data) = none := by
  unfold mergeSrc
  rw [dlookupLast_dinsert, if_neg (by decide), dlookupLast_derase_self]

theorem dlookupLast_mergeSrc_other (w : Bool) (data : List (String × RawVal)) (k : String)
    (h1 : k ≠ "comments") (h2 : k ≠ "comment_limit") (h3 : k ≠ "comment_sort") :
    dlookupLast k (mergeSrc w data) = dlookupLast k (initFromData w data) := by
  unfold mergeSrc
  rw [dlookupLast_dinsert, if_neg (fun e => h1 e.symm),
      dlookupLast_derase_ne _ _ _ h3, dlookupLast_derase_ne _ _ _ h2]

theorem dlookupLast_initFromData (w : Bool) (data : List (String × RawVal)) (k : String)
    (h1 : k ≠ "comments") (h2 : k ≠ "_comments_by_id") :
    dlookupLast k (initFromData w data) =
      oor ((dlookupLast k data).map (normalizeAttr k))
        (dlookupLast k (baseInit w (defaultsDict w) none)) := by
  unfold initFromData finishInit
  rw [dlookupLast_dinsert, if_neg (fun e => h1 e.symm),
      dlookupLast_dinsert, if_neg (fun e => h2 e.symm)]
  show dlookupLast k (foldSetattr w (baseInit w (defaultsDict w) none) data) = _
  rw [dlookupLast_foldSetattr]

theorem dlookupLast_baseNone (w : Bool) (k : String)
    (h1 : k ≠ "_fetched") (h2 : k ≠ "_reddit")
    (h3 : k ≠ "comment_sort") (h4 : k ≠ "comment_limit") :
    dlookupLast k (baseInit w (defaultsDict w) none) = none := by
  show dlookupLast k (dinsert "_fetched" (normalizeAttr "_fetched" (.b false))
    (dinsert "_reddit" (normalizeAttr "_reddit" (.b true)) (defaultsDict w))) = none
  rw [dlookupLast_dinsert, if_neg (fun e => h1 e.symm),
      dlookupLast_dinsert, if_neg (fun e => h2 e.symm)]
  show dlookupLast k (dinsert "comment_sort" (normalizeAttr "comment_sort" (.s "confidence"))
    (dinsert "comment_limit" (normalizeAttr "comment_limit" (.n 2048)) [])) = none
  rw [dlookupLast_dinsert, if_neg (fun e => h3 e.symm),
      dlookupLast_dinsert, if_neg (fun e => h4 e.symm)]
  rfl

theorem dlookup_fetchMerge_data (w : Bool) (s : Dict) (data : List (String × RawVal))
    (children : List RawVal) (k : String) (v : RawVal)
    (hk1 : k ≠ "comments") (hk2 : k ≠ "_fetched") (hk3 : k ≠ "_comments_by_id")
    (hk4 : k ≠ "comment_sort") (hk5 : k ≠ "comment_limit")
    (hv : dlookupLast k data = some v) :
    dlookup k (fetchMerge w s data children) = some (normalizeAttr k v) := by
  rw [dlookup_fetchMerge, if_neg (fun e => hk1 e.symm), if_neg (fun e => hk2 e.symm),
      dlookupLast_mergeSrc_other w data k hk1 hk5 hk4,
      dlookupLast_initFromData w data k hk1 hk3, hv]
  simp [oor]

theorem normalizeAttr_author (v : RawVal) : normalizeAttr "author" v = .redditorRef v := by
  unfold normalizeAttr
  rw [if_pos rfl]

theorem normalizeAttr_subreddit (v : RawVal) : normalizeAttr "subreddit" v = .subredditRef v := by
  unfold normalizeAttr
  rw [if_neg (by decide), if_pos rfl]

theorem normalizeAttr_poll (v : RawVal) : normalizeAttr "poll_data" v = .pollData v := by
  unfold normalizeAttr
  rw [if_neg (by decide), if_neg (by decide), if_pos rfl]

theorem normalizeAttr_raw (k : String) (v : RawVal)
    (h1 : k ≠ "author") (h2 : k ≠ "subreddit") (h3 : k ≠ "poll_data") :
    normalizeAttr k v = .raw v := by
  unfold normalizeAttr
  rw [if_neg h1, if_neg h2, if_neg h3]

/-! ## Claim theorems -/

/-- Claim C1 (code bug): the chunking operation steps positions by the given
maximum group size but slices with the literal 50. At chunk size 1 with the two
fullnames t3_a and t3_b it yields the groups [t3_a, t3_b] and [t3_b]: the first
group exceeds the maximum size 1 and the concatenation repeats t3_b instead of
reproducing the input list, contradicting the claim. -/
theorem c1_chunk_slice_bug :
    chunkGroups "t3_a" ["t3_b"] 1 = [["t3_a", "t3_b"], ["t3_b"]] ∧
    (chunkGroups "t3_a" ["t3_b"] 1).flatten ≠ ["t3_a", "t3_b"] ∧
    ¬ (∀ g ∈ chunkGroups "t3_a" ["t3_b"] 1, g.length ≤ 1) := by
  refine ⟨by decide, by decide, ?_⟩
  intro h
  exact absurd (h ["t3_a", "t3_b"] (by decide)) (by decide)

/-- Claim C3 counterexample: on a fetched submission with the client attached
and the warning configuration enabled, an assignment to comment_limit updates
the stored value but emits no warning, refuting the claim that every
post-fetch assignment to an ordering parameter is accompanied by a warning. -/
theorem c3_counterexample :
    (setattrS true [("_fetched", .raw (.b true)), ("_reddit", .raw (.b true))]
        "comment_limit" (.n 100)).2 = false ∧
    dlookup "comment_limit"
      (setattrS true [("_fetched", .raw (.b true)), ("_reddit", .raw (.b true))]
        "comment_limit" (.n 100)).1 = some (.raw (.n 100)) := by
  decide

/-- Claim C3 (amended): on a fetched submission with the client attached, an
assignment to comment_sort never raises, updates the stored value, and emits a
warning exactly when the warn_comment_sort configuration flag is on, while an
assignment to comment_limit never raises, updates the stored value, and emits
no warning. -/
theorem c3_ordering_param_mutation (w : Bool) (d : Dict) (v : RawVal)
    (hf : fetchedTrue d = true) (hr : hasReddit d = true) :
    (dlookup "comment_sort" (setattrS w d "comment_sort" v).1 = some (.raw v) ∧
     (setattrS w d "comment_sort" v).2 = w) ∧
    (dlookup "comment_limit" (setattrS w d "comment_limit" v).1 = some (.raw v) ∧
     (setattrS w d "comment_limit" v).2 = false) := by
  refine ⟨⟨?_, ?_⟩, ?_, ?_⟩
  · rw [setattrS_fst, dlookup_dinsert, if_pos rfl,
      normalizeAttr_raw _ _ (by decide) (by decide) (by decide)]
  · simp [setattrS, hf, hr]
  · rw [setattrS_fst, dlookup_dinsert, if_pos rfl,
      normalizeAttr_raw _ _ (by decide) (by decide) (by decide)]
  · simp [setattrS]

/-- Claim C3 witness. -/
theorem c3_witness :
    (dlookup "comment_sort"
        (setattrS true [("_fetched", .raw (.b true)), ("_reddit", .raw (.b true))]
          "comment_sort" (.s "new")).1 = some (.raw (.s "new")) ∧
     (setattrS true [("_fetched", .raw (.b true)), ("_reddit", .raw (.b true))]
        "comment_sort" (.s "new")).2 = true) ∧
    (dlookup "comment_limit"
        (setattrS true [("_fetched", .raw (.b true)), ("_reddit", .raw (.b true))]
          "comment_limit" (.s "new")).1 = some (.raw (.s "new")) ∧
     (setattrS true [("_fetched", .raw (.b true)), ("_reddit", .raw (.b true))]
        "comment_limit" (.s "new")).2 = false) :=
  c3_ordering_param_mutation true
    [("_fetched", .raw (.b true)), ("_reddit", .raw (.b true))] (.s "new")
    (by decide) (by decide)

/-- Claim C5: assigning a raw value to the author, subreddit or poll_data
attribute stores the corresponding typed object rather than the raw value,
identically through direct assignment and through the fetch-merge path, while
every other attribute stores the assigned value verbatim. -/
theorem c5_attribute_normalization (w : Bool) (d : Dict) (v : RawVal) :
    dlookup "author" (setattrS w d "author" v).1 = some (.redditorRef v) ∧
    dlookup "subreddit" (setattrS w d "subreddit" v).1 = some (.subredditRef v) ∧
    dlookup "poll_data" (setattrS w d "poll_data" v).1 = some (.pollData v) ∧
    (∀ k, k ≠ "author" → k ≠ "subreddit" → k ≠ "poll_data" →
      dlookup k (setattrS w d k v).1 = some (.raw v)) ∧
    (∀ s data children, dlookupLast "author" data = some v →
      dlookup "author" (fetchMerge w s data children) = some (.redditorRef v)) ∧
    (∀ s data children, dlookupLast "subreddit" data = some v →
      dlookup "subreddit" (fetchMerge w s data children) = some (.subredditRef v)) ∧
    (∀ s data children, dlookupLast "poll_data" data = some v →
      dlookup "poll_data" (fetchMerge w s data children) = some (.pollData v)) := by
  refine ⟨?_, ?_, ?_, ?_, ?_, ?_, ?_⟩
  · rw [setattrS_fst, dlookup_dinsert, if_pos rfl, normalizeAttr_author]
  · rw [setattrS_fst, dlookup_dinsert, if_pos rfl, normalizeAttr_subreddit]
  · rw [setattrS_fst, dlookup_dinsert, if_pos rfl, normalizeAttr_poll]
  · intro k h1 h2 h3
    rw [setattrS_fst, dlookup_dinsert, if_pos rfl, normalizeAttr_raw k v h1 h2 h3]
  · intro s data children hv
    rw [dlookup_fetchMerge_data w s data children "author" v (by decide) (by decide)
      (by decide) (by decide) (by decide) hv, normalizeAttr_author]
  · intro s data children hv
    rw [dlookup_fetchMerge_data w s data children "subreddit" v (by decide) (by decide)
      (by decide) (by decide) (by decide) hv, normalizeAttr_subreddit]
  · intro s data children hv
    rw [dlookup_fetchMerge_data w s data children "poll_data" v (by decide) (by decide)
      (by decide) (by decide) (by decide) hv, normalizeAttr_poll]

/-- Claim C5 witness. -/
theorem c5_witness :
    dlookup "author" (setattrS true [] "author" (.s "spez")).1 =
      some (.redditorRef (.s "spez")) ∧
    dlookup "subreddit" (setattrS true [] "subreddit" (.s "spez")).1 =
      some (.subredditRef (.s "spez")) ∧
    dlookup "poll_data" (setattrS true [] "poll_data" (.s "spez")).1 =
      some (.pollData (.s "spez")) ∧
    dlookup "title" (setattrS true [] "title" (.s "spez")).1 = some (.raw (.s "spez")) ∧
    dlookup "author" (fetchMerge true [] [("author", .s "spez")] []) =
      some (.redditorRef (.s "spez")) ∧
    dlookup "subreddit" (fetchMerge true [] [("subreddit", .s "spez")] []) =
      some (.subredditRef (.s "spez")) ∧
    dlookup "poll_data" (fetchMerge true [] [("poll_data", .s "spez")] []) =
      some (.pollData (.s "spez")) := by
  obtain ⟨h1, h2, h3, h4, h5, h6, h7⟩ := c5_attribute_normalization true [] (.s "spez")
  exact ⟨h1, h2, h3, h4 "title" (by decide) (by decide) (by decide),
    h5 [] [("author", .s "spez")] [] (by decide),
    h6 [] [("subreddit", .s "spez")] [] (by decide),
    h7 [] [("poll_data", .s "spez")] [] (by decide)⟩

/-- Claim C6: after a fetch-merge, comment_limit and comment_sort hold
exactly the values they held before the fetch (the transient submission has
them deleted before the merge), and the fetched flag is set. -/
theorem c6_fetch_preserves_ordering_params (w : Bool) (s : Dict)
    (data : List (String × RawVal)) (children : List RawVal) :
    dlookup "comment_limit" (fetchMerge w s data children) =
      dlookup "comment_limit" s ∧
    dlookup "comment_sort" (fetchMerge w s data children) =
      dlookup "comment_sort" s ∧
    dlookup "_fetched" (fetchMerge w s data children) = some (.raw (.b true)) := by
  refine ⟨?_, ?_, ?_⟩
  · rw [dlookup_fetchMerge, if_neg (by decide), if_neg (by decide),
      dlookupLast_mergeSrc_limit]
    rfl
  · rw [dlookup_fetchMerge, if_neg (by decide), if_neg (by decide),
      dlookupLast_mergeSrc_sort]
    rfl
  · rw [dlookup_fetchMerge, if_neg (by decide), if_pos rfl]

/-- Claim C7: fetching twice with the same backing record and comment listing
yields field-for-field identical state after the first and second fetch. -/
theorem c7_fetch_idempotent (w : Bool) (s : Dict) (data : List (String × RawVal))
    (children : List RawVal) (k : String) :
    dlookup k (fetchMerge w (fetchMerge w s data children) data children) =
      dlookup k (fetchMerge w s data children) := by
  rw [dlookup_fetchMerge, dlookup_fetchMerge]
  by_cases h1 : "comments" = k
  · simp [h1]
  · by_cases h2 : "_fetched" = k
    · simp [h1, h2]
    · rw [if_neg h1, if_neg h2, if_neg h1, if_neg h2, oor_idem]

/-- Claim C8: the sticky operation suppresses a transport Conflict (returning
normally with no result), passes a successful transport result through, and
propagates every non-Conflict transport error unchanged. -/
theorem c8_sticky_conflict (f : String) (bottom state : Bool)
    (transport : StickyRequest → Except TransportErr RawVal) :
    (transport (stickyRequest f bottom state) = .error .conflict →
      sticky f bottom state transport = .ok none) ∧
    (∀ v, transport (stickyRequest f bottom state) = .ok v →
      sticky f bottom state transport = .ok (some v)) ∧
    (∀ e, transport (stickyRequest f bottom state) = .error e → e ≠ .conflict →
      sticky f bottom state transport = .error e) := by
  refine ⟨?_, ?_, ?_⟩
  · intro h
    unfold sticky
    rw [h]
  · intro v h
    unfold sticky
    rw [h]
  · intro e h hne
    unfold sticky
    rw [h]
    cases e with
    | conflict => exact absurd rfl hne
    | httpError n => rfl

/-- Claim C8 witness. -/
theorem c8_witness :
    sticky "t3_x" true true (fun _ => .error .conflict) = .ok none ∧
    sticky "t3_x" true true (fun _ => .ok (.b true)) = .ok (some (.b true)) ∧
    sticky "t3_x" true true (fun _ => .error (.httpError 500)) =
      .error (.httpError 500) :=
  ⟨(c8_sticky_conflict "t3_x" true true (fun _ => .error .conflict)).1 rfl,
   (c8_sticky_conflict "t3_x" true true (fun _ => .ok (.b true))).2.1 (.b true) rfl,
   (c8_sticky_conflict "t3_x" true true (fun _ => .error (.httpError 500))).2.2
     (.httpError 500) rfl (by decide)⟩

/-- Claim C9: send_removal_message on the mixin default (no removal-message
endpoint) fails with the unsupported-operation error before any request is
built, while the submission moderation kind, which configures the
removal_link_message endpoint, proceeds to issue the removal-message request. -/
theorem c9_removal_message_endpoint (api_path : String → String)
    (fullname message title rtype : String) :
    send_removal_message ThingModerationMixin_REMOVAL_MESSAGE_API api_path
        fullname message title rtype = .error .unsupportedOperation ∧
    send_removal_message SubmissionModeration_REMOVAL_MESSAGE_API api_path
        fullname message title rtype =
      .ok ⟨api_path "removal_link_message", [fullname], message, title, rtype⟩ :=
  ⟨rfl, rfl⟩

/-- Claim C2 counterexample: a URL whose last path segment is exactly
"comments" but whose path also contains a "gallery" segment does not fail
with the invalid URL error: the gallery branch is checked first and the
segment after "gallery" is returned. -/
theorem c2_counterexample :
    (["gallery", "abc123", "comments"].getLast? = some "comments") ∧
    id_from_url ["gallery", "abc123", "comments"] = .ok "abc123" :=
  ⟨rfl, rfl⟩

/-- Claim C2 (amended): the four accepted URL shapes (shortlink, comments path
without subreddit, full subreddit permalink, gallery path) return the bare
alphanumeric identifier, provided the identifier and intermediate segments do
not themselves collide with the marker segments; a community-only URL fails
with the invalid URL error; a URL whose last path segment is exactly
"comments" and whose path contains no "gallery" segment fails with the
invalid URL error; a non-alphanumeric extracted identifier fails with the
invalid URL error. -/
theorem c2_id_from_url (i sub title : String) :
    (pyIsAlnum i = true → i ≠ "comments" → i ≠ "gallery" → i ≠ "r" →
      id_from_url [i] = .ok i) ∧
    (pyIsAlnum i = true → i ≠ "comments" → i ≠ "gallery" →
      id_from_url ["comments", i] = .ok i) ∧
    (pyIsAlnum i = true → sub ≠ "comments" → sub ≠ "gallery" → i ≠ "gallery" →
      title ≠ "comments" → title ≠ "gallery" →
      id_from_url ["r", sub, "comments", i, title] = .ok i) ∧
    (pyIsAlnum i = true → id_from_url ["gallery", i] = .ok i) ∧
    (∀ parts : List String, parts.contains "r" = true →
      parts.contains "comments" = false → parts.contains "gallery" = false →
      id_from_url parts =
        .error (.invalidURL "Invalid URL (subreddit, not submission)")) ∧
    (∀ parts : List String, parts.getLast? = some "comments" →
      parts.contains "gallery" = false →
      id_from_url parts =
        .error (.invalidURL "Invalid URL (submission ID not present)")) ∧
    (∀ j : String, pyIsAlnum j = false →
      id_from_url [j] = .error (.invalidURL "Invalid URL")) ∧
    (∀ j : String, pyIsAlnum j = false →
      id_from_url ["comments", j] = .error (.invalidURL "Invalid URL")) ∧
    (∀ j : String, pyIsAlnum j = false →
      id_from_url ["gallery", j] = .error (.invalidURL "Invalid URL")) := by
  refine ⟨?_, ?_, ?_, ?_, ?_, ?_, ?_, ?_, ?_⟩
  · intro ha h1 h2 h3
    simp [id_from_url, h1, h2, h3, Ne.symm h1, Ne.symm h2, Ne.symm h3, ha]
  · intro ha h1 h2
    simp [id_from_url, h1, h2, Ne.symm h1, Ne.symm h2, ha]
  · intro ha hs1 hs2 hi ht1 ht2
    simp [id_from_url, Ne.symm hs1, Ne.symm hs2, Ne.symm hi, Ne.symm ht1,
      Ne.symm ht2, hs1, hs2, hi, ht1, ht2, ha, List.getLast?]
  · intro ha
    simp [id_from_url, ha]
  · intro parts hr hc hg
    have hr2 : "r" ∈ parts := by simpa using hr
    have hc2 : "comments" ∉ parts := by simpa using hc
    have hg2 : "gallery" ∉ parts := by simpa using hg
    have hne : parts ≠ [] := List.ne_nil_of_mem hr2
    obtain ⟨last, hlast⟩ := Option.isSome_iff_exists.mp (List.getLast?_isSome.mpr hne)
    simp [id_from_url, hc2, hg2, hlast, hr2]
  · intro parts hlast hg
    have hmem : "comments" ∈ parts := List.mem_of_getLast?_eq_some hlast
    have hg2 : "gallery" ∉ parts := by simpa using hg
    simp [id_from_url, hmem, hg2, hlast]
  · intro j hj
    have h1 : j ≠ "comments" := by
      intro e
      rw [e] at hj
      exact absurd hj (by decide)
    have h2 : j ≠ "gallery" := by
      intro e
      rw [e] at hj
      exact absurd hj (by decide)
    have h3 : j ≠ "r" := by
      intro e
      rw [e] at hj
      exact absurd hj (by decide)
    simp [id_from_url, h1, h2, h3, Ne.symm h1, Ne.symm h2, Ne.symm h3, hj]
  · intro j hj
    have h1 : j ≠ "comments" := by
      intro e
      rw [e] at hj
      exact absurd hj (by decide)
    have h2 : j ≠ "gallery" := by
      intro e
      rw [e] at hj
      exact absurd hj (by decide)
    simp [id_from_url, h1, h2, Ne.symm h1, Ne.symm h2, hj]
  · intro j hj
    simp [id_from_url, hj]

/-- Claim C2 witness. -/
theorem c2_witness :
    id_from_url ["2gmzqe"] = .ok "2gmzqe" ∧
    id_from_url ["comments", "2gmzqe"] = .ok "2gmzqe" ∧
    id_from_url ["r", "redditdev", "comments", "2gmzqe", "praw"] = .ok "2gmzqe" ∧
    id_from_url ["gallery", "2gmzqe"] = .ok "2gmzqe" ∧
    id_from_url ["r", "redditdev"] =
      .error (.invalidURL "Invalid URL (subreddit, not submission)") ∧
    id_from_url ["comments"] =
      .error (.invalidURL "Invalid URL (submission ID not present)") ∧
    id_from_url ["pr.aw"] = .error (.invalidURL "Invalid URL") ∧
    id_from_url ["comments", "pr.aw"] = .error (.invalidURL "Invalid URL") ∧
    id_from_url ["gallery", "pr.aw"] = .error (.invalidURL "Invalid URL") := by
  obtain ⟨h1, h2, h3, h4, h5, h6, h7, h8, h9⟩ := c2_id_from_url "2gmzqe" "redditdev" "praw"
  exact ⟨h1 (by decide) (by decide) (by decide) (by decide),
    h2 (by decide) (by decide) (by decide),
    h3 (by decide) (by decide) (by decide) (by decide) (by decide) (by decide),
    h4 (by decide),
    h5 ["r", "redditdev"] (by decide) (by decide) (by decide),
    h6 ["comments"] (by decide) (by decide),
    h7 "pr.aw" (by decide),
    h8 "pr.aw" (by decide),
    h9 "pr.aw" (by decide)⟩

/-- Claim C10: for a URL whose "gallery" segment (as found by the first-index
search) is the last path segment, the lookup of the following segment is out
of range, so the function fails with the index error rather than the invalid
URL error. -/
theorem c10_gallery_trailing (parts : List String)
    (hmem : parts.contains "gallery" = true)
    (hpos : parts.indexOf "gallery" + 1 = parts.length) :
    id_from_url parts = .error .indexError := by
  have hm2 : "gallery" ∈ parts := by simpa using hmem
  have hnone : parts[parts.indexOf "gallery" + 1]? = none := by
    rw [hpos]
    exact List.getElem?_eq_none (Nat.le_refl _)
  simp [id_from_url, hm2, hnone]

/-- Claim C10 witness. -/
theorem c10_witness : id_from_url ["gallery"] = .error .indexError :=
  c10_gallery_trailing ["gallery"] (by decide) (by decide)

/-- Claim C4 counterexample: with exactly one argument supplied, a url that is
a subreddit path makes construction fail with the invalid URL error instead of
succeeding. -/
theorem c4_counterexample :
    submissionInit true none (some ["r", "redditdev"]) none =
      .error (.urlError (.invalidURL "Invalid URL (subreddit, not submission)")) :=
  rfl

/-- Claim C4 (amended): whenever the number of supplied identity arguments is
not exactly one, construction fails with the identity error; the embedding is
a pure function, so no construction path performs network access. With exactly
one supplied argument construction succeeds, except that a url rejected by
id_from_url propagates that failure. -/
theorem c4_identity_arity (w : Bool) :
    (∀ id? url? data?, suppliedCount id? url? data? ≠ 1 →
      submissionInit w id? url? data? = .error .identityError) ∧
    (∀ i, ∃ d, submissionInit w (some i) none none = .ok d) ∧
    (∀ data, submissionInit w none none (some data) = .ok (initFromData w data)) ∧
    (∀ segs i, id_from_url segs = .ok i →
      submissionInit w none (some segs) none =
        .ok (finishInit w (setattrS w (defaultsDict w) "id" (.s i)).1 none)) ∧
    (∀ segs e, id_from_url segs = .error e →
      submissionInit w none (some segs) none = .error (.urlError e)) := by
  refine ⟨?_, ?_, ?_, ?_, ?_⟩
  · intro id? url? data? h
    cases id? <;> cases url? <;> cases data? <;>
      simp [suppliedCount] at h <;>
      simp [submissionInit, countNone]
  · intro i
    by_cases hi : i = ""
    · exact ⟨finishInit w (defaultsDict w) none,
        by simp [submissionInit, countNone, hi]⟩
    · exact ⟨finishInit w (setattrS w (defaultsDict w) "id" (.s i)).1 none,
        by simp [submissionInit, countNone, hi]⟩
  · intro data
    simp [submissionInit, countNone, initFromData]
  · intro segs i h
    simp [submissionInit, countNone, h]
  · intro segs e h
    simp [submissionInit, countNone, h]

/-- Claim C4 witness. -/
theorem c4_witness :
    submissionInit true (some "2gmzqe") (some ["comments", "2gmzqe"]) none =
      .error .identityError ∧
    (∃ d, submissionInit true (some "2gmzqe") none none = .ok d) ∧
    submissionInit true none none (some [("title", RawVal.s "praw")]) =
      .ok (initFromData true [("title", RawVal.s "praw")]) ∧
    submissionInit true none (some ["gallery", "2gmzqe"]) none =
      .ok (finishInit true (setattrS true (defaultsDict true) "id" (.s "2gmzqe")).1 none) ∧
    submissionInit true none (some ["comments"]) none =
      .error (.urlError (.invalidURL "Invalid URL (submission ID not present)")) := by
  obtain ⟨h1, h2, h3, h4, h5⟩ := c4_identity_arity true
  exact ⟨h1 (some "2gmzqe") (some ["comments", "2gmzqe"]) none (by decide),
    h2 "2gmzqe",
    h3 [("title", RawVal.s "praw")],
    h4 ["gallery", "2gmzqe"] "2gmzqe" rfl,
    h5 ["comments"] (.invalidURL "Invalid URL (submission ID not present)") rfl⟩
